import Mathlib

/-!
Shallow embedding of the event/animation scheduling subsystem of the TermOx
terminal-UI toolkit (namespace `ox`), centred on the `System` facade declared
in `include/termox/system/system.hpp`.  Inline member-function bodies present
in the header are transcribed directly; member functions whose bodies are not
part of the analysed sources are modelled from the specification and say so
in their doc comments.
-/

namespace ox

/-- Widget identity: a stable key standing for a `Widget*` / widget node. -/
abbrev WId := Nat

/-- The closed set of event kinds, each carrying its target widget identity
(`Event` in `event_fwd.hpp` / the spec's data model). -/
inductive Event where
  | paint (target : WId)
  | delete (target : WId)
  | focus_in (target : WId)
  | focus_out (target : WId)
  | key_press (target : WId) (key : Nat)
  | custom (target : WId) (code : Nat)
deriving DecidableEq, Repr

/-- The target widget identity carried by an event. -/
def Event.target : Event → WId
  | .paint t => t
  | .delete t => t
  | .focus_in t => t
  | .focus_out t => t
  | .key_press t _ => t
  | .custom t _ => t

/-! ## Animation engine (`Animation_engine`)

The engine's own member functions are declared in `animation_engine.hpp`,
which is not among the analysed sources; they are modelled from the spec,
section 4.3.  `System::enable_animation` / `System::disable_animation` are
inline in `system.hpp` and transcribed from there. -/

/-- Tick interval (`Animation_engine::Interval_t`, a millisecond count). -/
abbrev Interval_t := Nat

/-- State of the animation engine: whether the timer thread is running, how
many timer threads were ever spawned (to observe duplicate spawns), and the
registration mapping from widget identity to tick interval. -/
structure AnimationEngine where
  running : Bool
  threadsSpawned : Nat
  reg : WId → Option Interval_t

/-- Modelled from the spec: `Animation_engine::is_running` (body not under
the analysed sources); reports whether the engine is in the Running state. -/
def AnimationEngine.is_running (a : AnimationEngine) : Bool :=
  a.running

/-- Modelled from the spec: `Animation_engine::start` (body not under the
analysed sources).  Spec 4.3: Stopped→Running spawns the timer thread; no-op
if already Running. -/
def AnimationEngine.start (a : AnimationEngine) : AnimationEngine :=
  if a.running then a
  else { a with running := true, threadsSpawned := a.threadsSpawned + 1 }

/-- Modelled from the spec: `Animation_engine::register_widget` (body not
under the analysed sources).  Spec 4.3: adds/updates the mapping from the
widget to the interval. -/
def AnimationEngine.register_widget (a : AnimationEngine) (w : WId)
    (interval : Interval_t) : AnimationEngine :=
  { a with reg := fun x => if x = w then some interval else a.reg x }

/-- Modelled from the spec: `Animation_engine::unregister_widget` (body not
under the analysed sources).  Spec 4.3: removes the mapping; does not stop
the engine even if the mapping becomes empty. -/
def AnimationEngine.unregister_widget (a : AnimationEngine) (w : WId) :
    AnimationEngine :=
  { a with reg := fun x => if x = w then none else a.reg x }

/-- `System::enable_animation(Widget&, Interval_t)`, transcribed from the
inline body in `system.hpp`: starts the engine if not running, then
registers the widget. -/
def System.enable_animation (a : AnimationEngine) (w : WId)
    (interval : Interval_t) : AnimationEngine :=
  let a1 := if !a.is_running then a.start else a
  a1.register_widget w interval

/-- `System::disable_animation`, transcribed from the inline body in
`system.hpp`: unregisters the widget; does not stop the engine. -/
def System.disable_animation (a : AnimationEngine) (w : WId) :
    AnimationEngine :=
  a.unregister_widget w

/-! ## Terminal cursor (`System::set_cursor`)

`System::set_cursor` is inline in `system.hpp` and transcribed directly; the
external terminal driver's `show_cursor`/`move_cursor` calls are recorded as
a command trace.  `Cursor`/`Point` are the data carriers from
`widget/cursor.hpp` (enabled flag plus coordinates). -/

/-- A coordinate pair (`ox::Point`). -/
structure Point where
  x : Int
  y : Int
deriving DecidableEq, Repr

/-- A widget's declared cursor (`ox::Cursor`): an enabled flag and a
position. -/
structure Cursor where
  enabled : Bool
  position : Point
deriving DecidableEq, Repr

/-- `Cursor::is_enabled`. -/
def Cursor.is_enabled (c : Cursor) : Bool := c.enabled

/-- `Cursor::x`. -/
def Cursor.x (c : Cursor) : Int := c.position.x

/-- `Cursor::y`. -/
def Cursor.y (c : Cursor) : Int := c.position.y

/-- Commands issued to the external terminal driver. -/
inductive TermCmd where
  | show_cursor (visible : Bool)
  | move_cursor (p : Point)
deriving DecidableEq, Repr

/-- `System::set_cursor`, transcribed from the inline body in `system.hpp`:
if the cursor is disabled, `Terminal::show_cursor(false)`; otherwise
`Terminal::move_cursor({offset.x + cursor.x(), offset.y + cursor.y()})`
followed by `Terminal::show_cursor()` (whose default argument is true).  The
returned list is the driver-command trace in issue order. -/
def System.set_cursor (cursor : Cursor) (offset : Point) : List TermCmd :=
  if !cursor.is_enabled then [TermCmd.show_cursor false]
  else
    [TermCmd.move_cursor ⟨offset.x + cursor.x, offset.y + cursor.y⟩,
     TermCmd.show_cursor true]

/-! ## System lifetime (`System::~System`)

The destructor body is inline in `system.hpp`: `System::exit();` then
`Terminal::uninitialize();`.  The effects of those two calls are modelled
from their doc comments / the spec. -/

/-- Observable actions during System teardown. -/
inductive LifeAction where
  | exitCalled
  | uninitializeCalled
deriving DecidableEq, Repr

/-- Process state relevant to teardown: the user-input event loop's exit
flag, whether the terminal is in curses mode, and the action trace. -/
structure LifecycleState where
  exit_flag : Bool
  curses_mode : Bool
  trace : List LifeAction
deriving DecidableEq, Repr

/-- Modelled from the spec: `System::exit` body is not under the analysed
sources; per its doc comment it sets the exit flag for the user input event
loop. -/
def System.exitSystem (s : LifecycleState) : LifecycleState :=
  { s with exit_flag := true, trace := s.trace ++ [LifeAction.exitCalled] }

/-- Modelled from the spec: `Terminal::uninitialize` is the external driver
call that leaves curses mode (spec section 6). -/
def Terminal.uninitialize (s : LifecycleState) : LifecycleState :=
  { s with curses_mode := false,
           trace := s.trace ++ [LifeAction.uninitializeCalled] }

/-- `System::~System`, transcribed from the inline body in `system.hpp`:
`System::exit()` then `Terminal::uninitialize()`, in that order. -/
def System.destruct (s : LifecycleState) : LifecycleState :=
  Terminal.uninitialize (System.exitSystem s)

/-! ## Event queue binding and `System::post_event`

`System::post_event` and the initialisation of `current_queue_` are not
under the analysed sources (only declared in `system.hpp`); they are
modelled from the spec, section 4.1.  `System::set_current_queue` is inline
in `system.hpp`. -/

/-- Error kinds of the subsystem (spec section 7). -/
inductive SysError where
  | configuration
  | initialization_failure
deriving DecidableEq, Repr

/-- The facade's binding of a current event queue: either no queue has been
bound yet, or the bound queue's pending-event buffer. -/
structure QueueBinding where
  current_queue : Option (List Event)
deriving DecidableEq, Repr

/-- `System::set_current_queue`, transcribed from the inline body in
`system.hpp`: rebinds `current_queue_` to the given queue. -/
def System.set_current_queue (_s : QueueBinding) (queue : List Event) :
    QueueBinding :=
  { current_queue := some queue }

/-- Modelled from the spec: `System::post_event` body is not under the
analysed sources.  Spec 4.1: appends the event to the tail of the queue
currently bound as current; posting with no bound queue fails with a
Configuration error surfaced to the caller. -/
def System.post_event (s : QueueBinding) (e : Event) :
    Except SysError QueueBinding :=
  match s.current_queue with
  | none => Except.error SysError.configuration
  | some q => Except.ok { current_queue := some (q ++ [e]) }

/-! ## Head widget (`System::set_head`)

`System::set_head`'s body is not under the analysed sources; it is modelled
from the spec (data model: setting a new head first disables, but does not
destroy, the previous head; section 8: after `set_head(B)` following
`set_head(A)`, A is disabled and B is enabled) and the `system.hpp` doc
comment (will disable the previous head widget if not nullptr). -/

/-- State relevant to the head reference: the single head pointer, each
widget's enabled flag, and whether a widget has been destroyed. -/
structure HeadState where
  head : Option WId
  enabled : WId → Bool
  destroyed : WId → Bool

/-- Modelled from the spec: `System::set_head` body is not under the
analysed sources.  Disables the previous head (if any), enables the new head
(if non-null), and installs it as the single head; no widget is destroyed. -/
def System.set_head (s : HeadState) (new_head : Option WId) : HeadState :=
  let s1 :=
    match s.head with
    | some h => { s with enabled := fun w => if w = h then false else s.enabled w }
    | none => s
  match new_head with
  | some nh =>
      { s1 with head := some nh,
                enabled := fun w => if w = nh then true else s1.enabled w }
  | none => { s1 with head := none }

/-! ## Focus manager (`System::set_focus` / `System::clear_focus`)

Bodies not under the analysed sources; modelled from the spec, section 4.2:
`focus(widget)` is a no-op if the widget is already focused or is
disabled/not part of the current head's tree; otherwise it sends FocusOut to
the previous holder (if any) and FocusIn to the new one, immediately (not
queued), then updates the reference.  `clear_focus` sends FocusOut only and
clears the reference.  Sent events are returned as a list in send order;
the posted-event queue is part of the state so that its non-involvement is
observable. -/

/-- State relevant to the focus manager. -/
structure FocusState where
  focus : Option WId
  enabled : WId → Bool
  in_tree : WId → Bool
  queue : List Event

/-- Modelled from the spec: `System::set_focus` body is not under the
analysed sources (spec 4.2).  Returns the new state together with the list
of synchronously sent events, in send order. -/
def System.set_focus (s : FocusState) (w : WId) : FocusState × List Event :=
  if s.focus = some w || !s.enabled w || !s.in_tree w then (s, [])
  else
    match s.focus with
    | some p =>
        ({ s with focus := some w }, [Event.focus_out p, Event.focus_in w])
    | none => ({ s with focus := some w }, [Event.focus_in w])

/-- Modelled from the spec: `System::clear_focus` body is not under the
analysed sources (spec 4.2): sends FocusOut only, clears the reference. -/
def System.clear_focus (s : FocusState) : FocusState × List Event :=
  match s.focus with
  | some p => ({ s with focus := none }, [Event.focus_out p])
  | none => (s, [])

/-- A focus-manager operation. -/
inductive FocusOp where
  | set (w : WId)
  | clear
deriving DecidableEq, Repr

/-- Run a sequence of focus operations, accumulating all sent events. -/
def runFocusOps (s : FocusState) : List FocusOp → FocusState × List Event
  | [] => (s, [])
  | op :: rest =>
      let r :=
        match op with
        | FocusOp.set w => System.set_focus s w
        | FocusOp.clear => System.clear_focus s
      let r2 := runFocusOps r.1 rest
      (r2.1, r.2 ++ r2.2)

/-! ## `System::send_event`

Body not under the analysed sources; modelled from the spec, section 4.4:
delivery order is the process-wide event filters, in registration order, any
of which may consume the event and stop propagation, then the target
widget's own handler; the boolean result reports whether the event was
actually delivered (false if target missing/disabled/filtered). -/

/-- A process-wide event filter: returns true when it consumes the event. -/
abbrev EventFilter := Event → Bool

/-- Environment seen by `send_event`: which widgets exist, which are
enabled, and the registered filters in registration order. -/
structure SendEnv where
  alive : WId → Bool
  enabled : WId → Bool
  filters : List EventFilter

/-- One observable step of event delivery: a filter (by registration index)
being run, recording whether it consumed the event, or the target widget's
own handler being run. -/
inductive DeliveryStep where
  | filterRun (idx : Nat) (consumed : Bool)
  | handlerRun (target : WId)
deriving DecidableEq, Repr

/-- Modelled from the spec: the filter phase of `System::send_event`, with
`i` the registration index of the first filter in `fs`.  Runs filters in
order, stopping at the first that consumes; if none consumes, the target's
own handler runs.  Returns the delivery flag and the step trace. -/
def sendEventFilters (fs : List EventFilter) (i : Nat) (e : Event) :
    Bool × List DeliveryStep :=
  match fs with
  | [] => (true, [DeliveryStep.handlerRun e.target])
  | f :: rest =>
      if f e then (false, [DeliveryStep.filterRun i true])
      else
        let r := sendEventFilters rest (i + 1) e
        (r.1, DeliveryStep.filterRun i false :: r.2)

/-- Modelled from the spec: `System::send_event` body is not under the
analysed sources (spec 4.4).  Returns whether the event was actually
delivered, together with the delivery-step trace. -/
def System.send_event (env : SendEnv) (e : Event) :
    Bool × List DeliveryStep :=
  if env.alive e.target && env.enabled e.target then
    sendEventFilters env.filters 0 e
  else (false, [])

/-- Registration index of the first filter consuming `e`, if any. -/
def firstConsuming (fs : List EventFilter) (e : Event) : Option Nat :=
  match fs with
  | [] => none
  | f :: rest =>
      if f e then some 0 else (firstConsuming rest e).map (· + 1)

/-! ## `System::run` and terminal initialization

`System::run()`'s body and `Terminal::initialize` are not under the analysed
sources; modelled from the spec (section 7: InitializationFailure is fatal,
surfaced to the caller of `run`, loop never starts) and the `system.hpp` doc
comment on `run` (throws if the screen cannot be initialized). -/

/-- Modelled from the spec: `Terminal::initialize` (external driver call,
spec section 6); `ok` says whether the terminal driver can initialize. -/
def Terminal.initDriver (ok : Bool) : Except SysError Unit :=
  if ok then Except.ok () else Except.error SysError.initialization_failure

/-- Outcome of `System::run`: the surfaced result (exit code or thrown
error) and whether the dispatch loop ever started processing events. -/
structure RunResult where
  outcome : Except SysError Int
  loop_started : Bool
deriving Repr

/-- Modelled from the spec: `System::run()` body is not under the analysed
sources.  Initializes the terminal driver first; on failure the error is
surfaced to the caller and the dispatch loop never starts; on success the
loop runs until `System::exit` and the exit code is returned. -/
def System.run (driver_ok : Bool) (exit_code : Int) : RunResult :=
  match Terminal.initDriver driver_ok with
  | Except.error err => { outcome := Except.error err, loop_started := false }
  | Except.ok _ => { outcome := Except.ok exit_code, loop_started := true }

/-! ## Theorems -/

/-- C1: if `post_event` is called when no Event_queue has been bound as the
current queue, the post fails with a Configuration error surfaced to the
caller; every successful post had a current queue bound beforehand, and
binding a queue via `set_current_queue` makes posting succeed. -/
theorem C1_post_event_requires_bound_queue (s : QueueBinding) (e : Event) :
    (s.current_queue = none →
      System.post_event s e = Except.error SysError.configuration) ∧
    (∀ s', System.post_event s e = Except.ok s' →
      ∃ q, s.current_queue = some q) ∧
    (∀ q, ∃ s',
      System.post_event (System.set_current_queue s q) e = Except.ok s') := by
  refine ⟨fun h => ?_, fun s' h => ?_, fun q => ?_⟩
  · simp [System.post_event, h]
  · cases hq : s.current_queue with
    | none => rw [System.post_event, hq] at h; cases h
    | some q => exact ⟨q, rfl⟩
  · exact ⟨{ current_queue := some (q ++ [e]) }, rfl⟩

/-- Witness for C1 at concrete inputs: an unbound binding yields the
Configuration error; a successful post on a bound binding had a queue; a
fresh binding via `set_current_queue` accepts posts. -/
theorem C1_post_event_requires_bound_queue_witness :
    System.post_event ⟨none⟩ (Event.paint 0) =
      Except.error SysError.configuration ∧
    (∃ q, (⟨some [Event.paint 1]⟩ : QueueBinding).current_queue = some q) ∧
    ∃ s', System.post_event
      (System.set_current_queue ⟨none⟩ []) (Event.paint 0) = Except.ok s' :=
  ⟨(C1_post_event_requires_bound_queue ⟨none⟩ (Event.paint 0)).1 rfl,
   (C1_post_event_requires_bound_queue ⟨some [Event.paint 1]⟩
      (Event.paint 0)).2.1 ⟨some [Event.paint 1, Event.paint 0]⟩ rfl,
   (C1_post_event_requires_bound_queue ⟨none⟩ (Event.paint 0)).2.2 []⟩

/-- C5: `enable_animation(w, interval)` starts the engine exactly when it is
not already running (one new timer thread spawned iff previously stopped),
registers the mapping from `w` to `interval`, and leaves the engine in the
Running state. -/
theorem C5_enable_animation_starts_and_registers (a : AnimationEngine)
    (w : WId) (i : Interval_t) :
    (System.enable_animation a w i).running = true ∧
    (System.enable_animation a w i).reg w = some i ∧
    (a.running = true →
      (System.enable_animation a w i).threadsSpawned = a.threadsSpawned) ∧
    (a.running = false →
      (System.enable_animation a w i).threadsSpawned = a.threadsSpawned + 1) := by
  cases h : a.running <;>
    simp [System.enable_animation, AnimationEngine.is_running,
      AnimationEngine.start, AnimationEngine.register_widget, h]

/-- Witness for C5 at concrete engines: starting from a stopped engine
spawns the one timer thread, from a running engine spawns none. -/
theorem C5_enable_animation_starts_and_registers_witness :
    (System.enable_animation ⟨false, 0, fun _ => none⟩ 0 16).threadsSpawned =
      0 + 1 ∧
    (System.enable_animation ⟨true, 1, fun _ => none⟩ 0 16).threadsSpawned = 1 :=
  ⟨(C5_enable_animation_starts_and_registers ⟨false, 0, fun _ => none⟩
      0 16).2.2.2 rfl,
   (C5_enable_animation_starts_and_registers ⟨true, 1, fun _ => none⟩
      0 16).2.2.1 rfl⟩

/-- C6: `disable_animation(w)` removes w's registration while leaving the
engine's running state, its spawned-thread count, and every other widget's
registration unchanged. -/
theorem C6_disable_animation_removes_only_w (a : AnimationEngine)
    (w w' : WId) :
    (System.disable_animation a w).reg w = none ∧
    (System.disable_animation a w).running = a.running ∧
    (System.disable_animation a w).threadsSpawned = a.threadsSpawned ∧
    (w' ≠ w → (System.disable_animation a w).reg w' = a.reg w') := by
  refine ⟨?_, rfl, rfl, fun h => ?_⟩
  · simp [System.disable_animation, AnimationEngine.unregister_widget]
  · simp [System.disable_animation, AnimationEngine.unregister_widget, h]

/-- Witness for C6 at a concrete engine whose only registration is widget 0:
the removal empties the mapping yet the engine stays running, and widget 1's
(absent) registration is untouched. -/
theorem C6_disable_animation_removes_only_w_witness :
    (System.disable_animation
      ⟨true, 1, fun x => if x = 0 then some 16 else none⟩ 0).reg 0 = none ∧
    (System.disable_animation
      ⟨true, 1, fun x => if x = 0 then some 16 else none⟩ 0).running = true ∧
    (System.disable_animation
      ⟨true, 1, fun x => if x = 0 then some 16 else none⟩ 0).reg 1 = none := by
  have h := C6_disable_animation_removes_only_w
    (⟨true, 1, fun x => if x = 0 then some 16 else none⟩ : AnimationEngine) 0 1
  exact ⟨h.1, h.2.1, (h.2.2.2 (by decide)).trans rfl⟩

/-- C7: `start()` on an already-Running engine is a no-op (same state, so no
second timer thread and an unaffected registration mapping); consequently
`enable_animation` on a running engine reduces to pure registration and does
not restart the engine. -/
theorem C7_start_on_running_is_noop (a : AnimationEngine)
    (h : a.running = true) :
    AnimationEngine.start a = a ∧
    ∀ w i, System.enable_animation a w i =
      AnimationEngine.register_widget a w i := by
  refine ⟨by simp [AnimationEngine.start, h], fun w i => ?_⟩
  simp [System.enable_animation, AnimationEngine.is_running, h]

/-- Witness for C7 at a concrete running engine. -/
theorem C7_start_on_running_is_noop_witness :
    AnimationEngine.start ⟨true, 1, fun _ => none⟩ =
      (⟨true, 1, fun _ => none⟩ : AnimationEngine) ∧
    System.enable_animation (⟨true, 1, fun _ => none⟩ : AnimationEngine) 2 16 =
      AnimationEngine.register_widget ⟨true, 1, fun _ => none⟩ 2 16 :=
  ⟨(C7_start_on_running_is_noop ⟨true, 1, fun _ => none⟩ rfl).1,
   (C7_start_on_running_is_noop ⟨true, 1, fun _ => none⟩ rfl).2 2 16⟩

/-- C8: if the terminal driver cannot initialize, the failure is the fatal
InitializationFailure error surfaced to the caller of `run`, and the
dispatch loop never starts processing events. -/
theorem C8_init_failure_surfaced_loop_never_starts (ok : Bool) (code : Int)
    (err : SysError) (h : Terminal.initDriver ok = Except.error err) :
    (System.run ok code).outcome = Except.error err ∧
    (System.run ok code).loop_started = false ∧
    err = SysError.initialization_failure := by
  cases ok with
  | false =>
      have he : err = SysError.initialization_failure := by
        have := h.symm
        simp [Terminal.initDriver] at this
        exact this
      subst he
      exact ⟨rfl, rfl, rfl⟩
  | true => simp [Terminal.initDriver] at h

/-- Witness for C8 at a concrete failing driver. -/
theorem C8_init_failure_surfaced_loop_never_starts_witness :
    (System.run false 0).outcome =
      Except.error SysError.initialization_failure ∧
    (System.run false 0).loop_started = false :=
  ⟨(C8_init_failure_surfaced_loop_never_starts false 0
      SysError.initialization_failure rfl).1,
   (C8_init_failure_surfaced_loop_never_starts false 0
      SysError.initialization_failure rfl).2.1⟩

/-- C9: `set_cursor(cursor, offset)` with a disabled cursor hides the
terminal cursor and performs no cursor move; with an enabled cursor it moves
the terminal cursor to `(offset.x + cursor.x(), offset.y + cursor.y())` and
then shows it. -/
theorem C9_set_cursor_drives_terminal (cursor : Cursor) (offset : Point) :
    (cursor.is_enabled = false →
      System.set_cursor cursor offset = [TermCmd.show_cursor false] ∧
      ∀ p, TermCmd.move_cursor p ∉ System.set_cursor cursor offset) ∧
    (cursor.is_enabled = true →
      System.set_cursor cursor offset =
        [TermCmd.move_cursor ⟨offset.x + cursor.x, offset.y + cursor.y⟩,
         TermCmd.show_cursor true]) := by
  constructor <;> intro h <;> simp [System.set_cursor, h]

/-- Witness for C9 at a disabled and an enabled concrete cursor. -/
theorem C9_set_cursor_drives_terminal_witness :
    System.set_cursor ⟨false, ⟨2, 3⟩⟩ ⟨10, 20⟩ = [TermCmd.show_cursor false] ∧
    System.set_cursor ⟨true, ⟨2, 3⟩⟩ ⟨10, 20⟩ =
      [TermCmd.move_cursor ⟨10 + 2, 20 + 3⟩, TermCmd.show_cursor true] :=
  ⟨((C9_set_cursor_drives_terminal ⟨false, ⟨2, 3⟩⟩ ⟨10, 20⟩).1 rfl).1,
   (C9_set_cursor_drives_terminal ⟨true, ⟨2, 3⟩⟩ ⟨10, 20⟩).2 rfl⟩

/-- C10: destroying a System object invokes `System::exit()` and then
`Terminal::uninitialize()`, in that order, so after destruction the loop's
exit flag is set and the terminal has left curses mode, regardless of the
prior state. -/
theorem C10_destructor_exits_then_uninitializes (s : LifecycleState) :
    (System.destruct s).exit_flag = true ∧
    (System.destruct s).curses_mode = false ∧
    (System.destruct s).trace =
      s.trace ++ [LifeAction.exitCalled, LifeAction.uninitializeCalled] := by
  refine ⟨rfl, rfl, ?_⟩
  simp [System.destruct, System.exitSystem, Terminal.uninitialize]

/-- C2: after `set_head(A)` then `set_head(B)` with A and B distinct
non-null widgets, A is disabled and B is enabled; the head reference is the
single value B, and no widget has been destroyed by either call. -/
theorem C2_set_head_disables_previous (s : HeadState) (A B : WId)
    (hAB : A ≠ B) :
    (System.set_head (System.set_head s (some A)) (some B)).enabled A = false ∧
    (System.set_head (System.set_head s (some A)) (some B)).enabled B = true ∧
    (System.set_head (System.set_head s (some A)) (some B)).head = some B ∧
    ∀ w, (System.set_head (System.set_head s (some A)) (some B)).destroyed w =
      s.destroyed w := by
  cases h : s.head <;>
    simp [System.set_head, h, hAB, Ne.symm hAB]

/-- Witness for C2 with distinct heads 0 then 1 over a concrete state. -/
theorem C2_set_head_disables_previous_witness :
    (System.set_head (System.set_head
      ⟨none, fun _ => false, fun _ => false⟩ (some 0)) (some 1)).enabled 0 =
      false ∧
    (System.set_head (System.set_head
      ⟨none, fun _ => false, fun _ => false⟩ (some 0)) (some 1)).enabled 1 =
      true ∧
    (System.set_head (System.set_head
      ⟨none, fun _ => false, fun _ => false⟩ (some 0)) (some 1)).head =
      some 1 ∧
    (System.set_head (System.set_head
      ⟨none, fun _ => false, fun _ => false⟩ (some 0)) (some 1)).destroyed 0 =
      false := by
  have h := C2_set_head_disables_previous
    (⟨none, fun _ => false, fun _ => false⟩ : HeadState) 0 1 (by decide)
  exact ⟨h.1, h.2.1, h.2.2.1, h.2.2.2 0⟩

/-- C3: whenever `set_focus(w)` changes the focus, the synchronously sent
events are exactly a FocusOut to the previous holder (if any) followed by a
FocusIn to `w`, the new focus is `w`; the posted-event queue is never
touched by `set_focus`; and after any sequence of set_focus/clear_focus
operations at most one widget is focused. -/
theorem C3_focus_out_before_focus_in (s : FocusState) (w : WId) :
    ((System.set_focus s w).1.focus ≠ s.focus →
      (System.set_focus s w).1.focus = some w ∧
      (System.set_focus s w).2 =
        (match s.focus with
         | some p => [Event.focus_out p, Event.focus_in w]
         | none => [Event.focus_in w])) ∧
    (System.set_focus s w).1.queue = s.queue ∧
    (∀ (s0 : FocusState) (ops : List FocusOp) (w1 w2 : WId),
      (runFocusOps s0 ops).1.focus = some w1 →
      (runFocusOps s0 ops).1.focus = some w2 → w1 = w2) := by
  refine ⟨fun hch => ?_, ?_, fun s0 ops w1 w2 h1 h2 =>
    Option.some.inj (h1.symm.trans h2)⟩
  · by_cases hc : (s.focus = some w || !s.enabled w || !s.in_tree w) = true
    · exact absurd (by simp [System.set_focus, hc]) hch
    · simp only [Bool.or_eq_true, decide_eq_true_eq, Bool.not_eq_true',
        not_or] at hc
      cases hf : s.focus <;> rw [hf] at hc <;>
        simp [System.set_focus, hf, hc.1.1, hc.1.2, hc.2]
  · by_cases hc : (s.focus = some w || !s.enabled w || !s.in_tree w) = true
    · simp [System.set_focus, hc]
    · simp only [Bool.or_eq_true, decide_eq_true_eq, Bool.not_eq_true',
        not_or] at hc
      cases hf : s.focus <;> rw [hf] at hc <;>
        simp [System.set_focus, hf, hc.1.1, hc.1.2, hc.2]

/-- Witness for C3: moving focus from widget 0 to widget 1 in a concrete
state sends FocusOut 0 then FocusIn 1 and leaves the queue untouched, and a
concrete operation sequence leaves one focused widget. -/
theorem C3_focus_out_before_focus_in_witness :
    (System.set_focus
      ⟨some 0, fun _ => true, fun _ => true, [Event.paint 5]⟩ 1).1.focus =
      some 1 ∧
    (System.set_focus
      ⟨some 0, fun _ => true, fun _ => true, [Event.paint 5]⟩ 1).2 =
      [Event.focus_out 0, Event.focus_in 1] ∧
    (System.set_focus
      ⟨some 0, fun _ => true, fun _ => true, [Event.paint 5]⟩ 1).1.queue =
      [Event.paint 5] ∧
    (1 : WId) = 1 := by
  have h := C3_focus_out_before_focus_in
    (⟨some 0, fun _ => true, fun _ => true, [Event.paint 5]⟩ : FocusState) 1
  have hch := h.1 (by decide)
  exact ⟨hch.1, hch.2, h.2.1,
    h.2.2 ⟨some 0, fun _ => true, fun _ => true, []⟩ [FocusOp.set 1] 1 1
      (by decide) (by decide)⟩

/-- When no filter consumes the event, the filter phase runs every filter
in registration order and then the target's handler, reporting delivery. -/
theorem sendEventFilters_of_firstConsuming_none (e : Event) :
    ∀ (fs : List EventFilter), firstConsuming fs e = none → ∀ i,
      sendEventFilters fs i e =
        (true, (List.range' i fs.length).map
          (fun j => DeliveryStep.filterRun j false) ++
          [DeliveryStep.handlerRun e.target]) := by
  intro fs
  induction fs with
  | nil => intro _ i; simp [sendEventFilters]
  | cons f rest ih =>
      intro h i
      have hf : f e = false := by
        by_contra hc
        have hft : f e = true := by simpa using hc
        simp [firstConsuming, hft] at h
      have hrest : firstConsuming rest e = none := by
        simpa [firstConsuming, hf] using h
      simp [sendEventFilters, hf, ih hrest (i + 1), List.length_cons,
        List.range'_succ]

/-- When filter `k` (in registration order) is the first to consume the
event, the filter phase runs filters `i..i+k`, stops there, and reports
non-delivery. -/
theorem sendEventFilters_of_firstConsuming_some (e : Event) :
    ∀ (fs : List EventFilter) (k : Nat), firstConsuming fs e = some k →
      ∀ i, sendEventFilters fs i e =
        (false, (List.range' i k).map
          (fun j => DeliveryStep.filterRun j false) ++
          [DeliveryStep.filterRun (i + k) true]) := by
  intro fs
  induction fs with
  | nil => intro k h i; simp [firstConsuming] at h
  | cons f rest ih =>
      intro k h i
      by_cases hf : f e = true
      · rw [firstConsuming] at h
        simp [hf] at h
        subst h
        simp [sendEventFilters, hf, List.range'_zero]
      · have hf' : f e = false := by simpa using hf
        rw [firstConsuming] at h
        simp [hf'] at h
        obtain ⟨k', hk', rfl⟩ := h
        simp [sendEventFilters, hf', ih k' hk' (i + 1), List.range'_succ,
          Nat.add_assoc, Nat.add_comm, Nat.add_left_comm]

/-- C4: `send_event(e)` returns true exactly when the event reached the
target's own handler; it returns false when the target is missing or
disabled (in which case nothing runs) or when some filter consumed the
event; on a live enabled target the process-wide filters run in
registration order `0, 1, ...` before the target's handler, and the trace
stops at the first consuming filter. -/
theorem C4_send_event_delivery_contract (env : SendEnv) (e : Event) :
    ((System.send_event env e).1 = true ↔
      DeliveryStep.handlerRun e.target ∈ (System.send_event env e).2) ∧
    ((env.alive e.target = false ∨ env.enabled e.target = false) →
      (System.send_event env e).1 = false ∧
      (System.send_event env e).2 = []) ∧
    (env.alive e.target = true → env.enabled e.target = true →
      (firstConsuming env.filters e = none →
        System.send_event env e =
          (true, (List.range' 0 env.filters.length).map
            (fun j => DeliveryStep.filterRun j false) ++
            [DeliveryStep.handlerRun e.target])) ∧
      (∀ k, firstConsuming env.filters e = some k →
        System.send_event env e =
          (false, (List.range' 0 k).map
            (fun j => DeliveryStep.filterRun j false) ++
            [DeliveryStep.filterRun k true]))) := by
  refine ⟨?_, ?_, fun ha hb => ⟨fun hn => ?_, fun k hk => ?_⟩⟩
  · by_cases ha : env.alive e.target = true
    · by_cases hb : env.enabled e.target = true
      · cases hfc : firstConsuming env.filters e with
        | none =>
            simp [System.send_event, ha, hb,
              sendEventFilters_of_firstConsuming_none e env.filters hfc 0]
        | some k =>
            simp [System.send_event, ha, hb,
              sendEventFilters_of_firstConsuming_some e env.filters k hfc 0]
      · have hb' : env.enabled e.target = false := by simpa using hb
        simp [System.send_event, hb']
    · have ha' : env.alive e.target = false := by simpa using ha
      simp [System.send_event, ha']
  · rintro (h | h) <;> simp [System.send_event, h]
  · simp [System.send_event, ha, hb,
      sendEventFilters_of_firstConsuming_none e env.filters hn 0]
  · simp [System.send_event, ha, hb,
      sendEventFilters_of_firstConsuming_some e env.filters k hk 0]

/-- Witness for C4 at a concrete environment with two filters (the second
consumes events targeting widget 0): a filtered event stops at filter 1 and
is not delivered, an unfiltered event runs both filters then the handler,
and an event whose target is missing is not delivered. -/
theorem C4_send_event_delivery_contract_witness :
    System.send_event
      ⟨fun _ => true, fun _ => true,
       [fun ev => ev.target == 7, fun ev => ev.target == 0]⟩
      (Event.paint 0) =
      (false, [DeliveryStep.filterRun 0 false,
        DeliveryStep.filterRun 1 true]) ∧
    System.send_event
      ⟨fun _ => true, fun _ => true,
       [fun ev => ev.target == 7, fun ev => ev.target == 0]⟩
      (Event.custom 5 9) =
      (true, [DeliveryStep.filterRun 0 false, DeliveryStep.filterRun 1 false,
        DeliveryStep.handlerRun 5]) ∧
    (System.send_event ⟨fun _ => false, fun _ => true, []⟩
      (Event.paint 0)).1 = false := by
  refine ⟨?_, ?_, ?_⟩
  · exact ((C4_send_event_delivery_contract
      ⟨fun _ => true, fun _ => true,
       [fun ev => ev.target == 7, fun ev => ev.target == 0]⟩
      (Event.paint 0)).2.2 rfl rfl).2 1 rfl
  · exact ((C4_send_event_delivery_contract
      ⟨fun _ => true, fun _ => true,
       [fun ev => ev.target == 7, fun ev => ev.target == 0]⟩
      (Event.custom 5 9)).2.2 rfl rfl).1 rfl
  · exact ((C4_send_event_delivery_contract
      ⟨fun _ => false, fun _ => true, []⟩ (Event.paint 0)).2.1
        (Or.inl rfl)).1

end ox
